import Mathlib

set_option maxRecDepth 8192

/-!
Verification of the Freshservice Ticket Analyzer (server.js and its
API-key / script variants): a shallow embedding of the analyzer, the
paginated ticket fetcher with its re-login retry, the `/api/tickets`
handler, and the script variant's oracle-with-local-fallback workflow.

JavaScript conventions carried into the embedding:
  * an optional field is an `Option`; `none` stands for both `undefined`
    and `null` (the code only ever tests them for truthiness);
  * JS truthiness: a missing/null value, the empty string and the number 0
    are falsy — `x || d` on those yields `d`, `!x` yields `true`;
  * `Math.round` rounds half up, i.e. `⌊x + 1/2⌋`, which is Mathlib's
    `round` on `ℚ`.
-/

/-- Truthiness of an optional JS string: `undefined`, `null` and `""` are falsy. -/
def jsTruthyStr : Option String → Bool
  | none => false
  | some s => s != ""

/-- Truthiness of an optional JS number holding a natural: `undefined`, `null`
and `0` are falsy. -/
def jsTruthyNat : Option Nat → Bool
  | none => false
  | some n => n != 0

/-- Truthiness of an optional JS number holding an integer. -/
def jsTruthyInt : Option Int → Bool
  | none => false
  | some n => n != 0

/-- The `stats` sub-object of a raw ticket (the fields the analyzers read). -/
structure TicketStats where
  agent_responded_at : Option String := none
  outbound_count : Option Nat := none
  first_resp_time_in_secs : Option Nat := none
  first_responded_at : Option String := none

/-- The `requester` sub-object of a raw ticket. -/
structure Requester where
  name : Option String := none
  location_name : Option String := none

/-- The `ticket_status` sub-object of a raw ticket (server.js variant). -/
structure TicketStatus where
  name : Option String := none

/-- A raw ticket as returned by the upstream API: opaque beyond the fields the
analyzers read. `status` is the numeric status code read by the API-key
variant; `ticket_status` the object read by the browser-login variant. -/
structure RawTicket where
  id : Nat := 0
  human_display_id : Option String := none
  subject : Option String := none
  priority : Option Int := none
  requester : Option Requester := none
  ticket_status : Option TicketStatus := none
  status : Option Int := none
  stats : Option TicketStats := none
  created_at : Option String := none
  updated_at : Option String := none

/-- The dictionary `{ 1: 'P4', 2: 'P3', 3: 'P2', 4: 'P1' }` as a lookup. -/
def priorityMapLookup (p : Int) : Option String :=
  if p = 1 then some "P4"
  else if p = 2 then some "P3"
  else if p = 3 then some "P2"
  else if p = 4 then some "P1"
  else none

/-- JS `priorityMap[t.priority] || 'P4'`: the map's labels are all truthy, so
the default fires exactly when the lookup misses (absent or unmapped code). -/
def priorityLabel (p : Option Int) : String :=
  (p.bind priorityMapLookup).getD "P4"

/-- The dictionary `{ 2: 'Open', 3: 'Pending', 4: 'Resolved', 5: 'Closed' }`
of the API-key variant. -/
def statusMapLookup (s : Int) : Option String :=
  if s = 2 then some "Open"
  else if s = 3 then some "Pending"
  else if s = 4 then some "Resolved"
  else if s = 5 then some "Closed"
  else none

/-- JS `statusMap[t.status] || `Status ${t.status}`` of the API-key variant:
an unmapped numeric code falls back to the template label, and an absent
`status` interpolates as the text `undefined`. -/
def statusLabelApiVariant (s : Option Int) : String :=
  match s with
  | some v => (statusMapLookup v).getD ("Status " ++ toString v)
  | none => "Status undefined"

/-- JS `!t.stats?.agent_responded_at && (t.stats?.outbound_count || 0) <= 1`. -/
def isFresh (t : RawTicket) : Bool :=
  !jsTruthyStr (t.stats.bind TicketStats.agent_responded_at) &&
    decide ((t.stats.bind TicketStats.outbound_count).getD 0 ≤ 1)

/-- JS `Math.round`: round half towards `+∞`, i.e. `⌊x + 1/2⌋`, which is
Mathlib's `round` on `ℚ`. -/
def mathRound (q : ℚ) : ℤ := round q

/-- JS `t.stats?.first_resp_time_in_secs ? Math.round(secs / 60) : null`.
Note the condition is truthiness of the seconds value, so a present `0`
takes the `null` branch. -/
def responseTimeMinutes (t : RawTicket) : Option Int :=
  let secs := t.stats.bind TicketStats.first_resp_time_in_secs
  if jsTruthyNat secs then some (mathRound ((secs.getD 0 : ℚ) / 60)) else none

/-- JS `t.human_display_id || `#${t.id}``. -/
def ticketIdField (t : RawTicket) : String :=
  if jsTruthyStr t.human_display_id then t.human_display_id.getD ""
  else "#" ++ toString t.id

/-- JS `t.subject?.substring(0, 100) || 'No subject'`: an absent subject makes
the optional chain `undefined`, a present one is truncated to 100 characters,
and the default fires when the truncation is falsy (absent or empty subject). -/
def subjectField (t : RawTicket) : String :=
  let truncated := t.subject.map (fun s => s.take 100)
  if jsTruthyStr truncated then truncated.getD "" else "No subject"

/-- JS `t.requester?.name || 'Unknown'`. -/
def requesterNameField (t : RawTicket) : String :=
  let n := t.requester.bind Requester.name
  if jsTruthyStr n then n.getD "" else "Unknown"

/-- JS `t.requester?.location_name || 'Unknown'`. -/
def requesterLocationField (t : RawTicket) : String :=
  let l := t.requester.bind Requester.location_name
  if jsTruthyStr l then l.getD "" else "Unknown"

/-- JS `t.ticket_status?.name || 'Unknown'` (server.js variant). -/
def statusField (t : RawTicket) : String :=
  let s := t.ticket_status.bind TicketStatus.name
  if jsTruthyStr s then s.getD "" else "Unknown"

/-- The normalized output record of `analyzeTickets` (server.js variant). -/
structure AnalyzedTicket where
  ticket_id : String
  subject : String
  priority : String
  requester_name : String
  requester_location : String
  status : String
  attendance_status : String
  response_time_minutes : Option Int
  created_at : Option String
  updated_at : Option String

/-- The body of `tickets.map(t => {...})` in `analyzeTickets` (server.js). -/
def analyzeOne (t : RawTicket) : AnalyzedTicket where
  ticket_id := ticketIdField t
  subject := subjectField t
  priority := priorityLabel t.priority
  requester_name := requesterNameField t
  requester_location := requesterLocationField t
  status := statusField t
  attendance_status := if isFresh t then "FRESH" else "REPLIED"
  response_time_minutes := responseTimeMinutes t
  created_at := t.created_at
  updated_at := t.updated_at

/-- The `summary` object of an analysis result. -/
structure Summary where
  fresh_tickets : Nat
  replied_tickets : Nat
  p1_count : Nat
  p2_count : Nat
  p3_count : Nat
  p4_count : Nat

/-- The aggregate object `analyzeTickets` returns. -/
structure AnalysisResult where
  analysis_timestamp : String
  total_tickets : Nat
  summary : Summary
  tickets : List AnalyzedTicket

/-- `analyzeTickets` (server.js); `now` stands for `new Date().toISOString()`,
the only impure input. -/
def analyzeTickets (now : String) (tickets : List RawTicket) : AnalysisResult :=
  let analyzedTickets := tickets.map analyzeOne
  { analysis_timestamp := now
    total_tickets := tickets.length
    summary :=
      { fresh_tickets :=
          (analyzedTickets.filter (fun t => t.attendance_status == "FRESH")).length
        replied_tickets :=
          (analyzedTickets.filter (fun t => t.attendance_status == "REPLIED")).length
        p1_count := (analyzedTickets.filter (fun t => t.priority == "P1")).length
        p2_count := (analyzedTickets.filter (fun t => t.priority == "P2")).length
        p3_count := (analyzedTickets.filter (fun t => t.priority == "P3")).length
        p4_count := (analyzedTickets.filter (fun t => t.priority == "P4")).length }
    tickets := analyzedTickets }

/-- A ticket with `stats.agent_responded_at = ""` (present, empty) and
`stats.outbound_count = 0`. -/
def tEmptyRespondedAt : RawTicket :=
  { stats := some { agent_responded_at := some "", outbound_count := some 0 } }

/-- A ticket with `stats.first_resp_time_in_secs = 0` (present). -/
def tZeroResponse : RawTicket :=
  { stats := some { first_resp_time_in_secs := some 0 } }

/-- A ticket with `stats.first_resp_time_in_secs = 90`. -/
def tNinetySecs : RawTicket :=
  { stats := some { first_resp_time_in_secs := some 90 } }

/-- A ticket whose subject is present but empty. -/
def tEmptySubject : RawTicket := { subject := some "" }

/-- A raw ticket with every optional field absent. -/
def tBare : RawTicket := {}

example : (analyzeOne tEmptyRespondedAt).attendance_status = "FRESH" := by decide
example : (analyzeOne tZeroResponse).response_time_minutes = none := by decide
example : (analyzeOne tNinetySecs).response_time_minutes = some 2 := by
  simp [analyzeOne, responseTimeMinutes, tNinetySecs, jsTruthyNat, mathRound]
  norm_num [round_eq]
example : (analyzeOne tEmptySubject).subject = "No subject" := by decide
example : (analyzeOne tBare).priority = "P4" := by decide

/-- One upstream response to a single page request of `fetchTicketsFromAPI`. -/
inductive PageResp where
  | ok (tickets : List RawTicket)
  | authDenied
  | httpError (code : Nat)

/-- Outcome of one run of the pagination loop (one `while (hasMore)` pass over
pages 1, 2, ...): the accumulated tickets or the first thrown error, together
with the number of page requests issued. -/
inductive FetchOutcome where
  | success (tickets : List RawTicket) (calls : Nat)
  | authFail (calls : Nat)
  | httpFail (code : Nat) (calls : Nat)

/-- The `while (hasMore)` loop of `fetchTicketsFromAPI`, parametrised by the
upstream's successive page responses: the loop's page-`i` request receives the
i-th entry, and any request past the end of the list receives an empty page
(`data.tickets || []`). The request uses `per_page: 100` and the loop
continues exactly while the page just fetched holds exactly 100 tickets;
a 401/403 or other non-ok status throws out of the loop at once. -/
def runFetch : List PageResp → FetchOutcome
  | [] => .success [] 1
  | .ok ts :: rest =>
    if ts.length = 100 then
      match runFetch rest with
      | .success acc n => .success (ts ++ acc) (n + 1)
      | .authFail n => .authFail (n + 1)
      | .httpFail c n => .httpFail c (n + 1)
    else .success ts 1
  | .authDenied :: _ => .authFail 1
  | .httpError c :: _ => .httpFail c 1

/-- What a whole `fetchTicketsFromAPI` call (including its at-most-one
re-login retry) returns to its caller. -/
inductive FetchResult where
  | ok (tickets : List RawTicket)
  | fatalAuth
  | httpFail (code : Nat)

/-- `fetchTicketsFromAPI(options, retryOnAuth = true)`: on a 401/403 the
cached session is dropped (`sessionCookies = null`), `loginAndGetCookies()`
runs once, and the whole paginated fetch restarts from page 1 with
`retryOnAuth = false`; a 401/403 during that second run throws
`'Session expired and re-login failed'`. `firstRun` and `retryRun` are the
upstream's page responses seen by the two runs. Returns the caller-visible
result, the number of re-logins performed and the number of paginated fetch
sequences started. -/
def fetchWithRelogin (firstRun retryRun : List PageResp) :
    FetchResult × Nat × Nat :=
  match runFetch firstRun with
  | .success ts _ => (.ok ts, 0, 1)
  | .httpFail c _ => (.httpFail c, 0, 1)
  | .authFail _ =>
    match runFetch retryRun with
    | .success ts _ => (.ok ts, 1, 2)
    | .httpFail c _ => (.httpFail c, 1, 2)
    | .authFail _ => (.fatalAuth, 1, 2)

/-- The tickets one page response carries (`data.tickets || []`; an error
response delivers none). -/
def pageTickets : PageResp → List RawTicket
  | .ok ts => ts
  | .authDenied => []
  | .httpError _ => []

/-- JS `error.message.includes('credentials') ? '...' : null` in the
`/api/tickets` handler. -/
def handlerHint (msg : String) : Option String :=
  if (msg.splitOn "credentials").length > 1 then
    some "Set FRESHSERVICE_EMAIL and FRESHSERVICE_PASSWORD environment variables"
  else none

/-- The HTTP response of `GET /api/tickets`: `res.json(analysis)` on success,
`res.status(500).json({ error, hint })` on any thrown error. -/
inductive TicketsResponse where
  | okJson (body : AnalysisResult)
  | serverError (error : String) (hint : Option String)

/-- The message of the error `fetchWithRelogin` surfaces (`statusText` of an
HTTP failure is not modelled). -/
def fetchErrorMessage : FetchResult → String
  | .ok _ => ""
  | .fatalAuth => "Session expired and re-login failed"
  | .httpFail c => "HTTP " ++ toString c

/-- `app.get('/api/tickets')`: fetch, analyze, respond; a thrown error maps to
a 500 carrying the error message and the credentials hint when it applies. -/
def handleTickets (now : String) (firstRun retryRun : List PageResp) :
    TicketsResponse :=
  match (fetchWithRelogin firstRun retryRun).1 with
  | .ok ts => .okJson (analyzeTickets now ts)
  | r => .serverError (fetchErrorMessage r) (handlerHint (fetchErrorMessage r))

/-- The reply object the script variant's oracle produces once parsed: `main`
only ever reads `total_tickets` from it (for the falsiness test); the rest of
the parsed JSON is opaque to the workflow and kept as `rest`. -/
structure OracleAnalysis where
  total_tickets : Option Int := none
  rest : String := ""

/-- How one oracle session of `analyzeTicketsWithPuter` goes, abstracting the
browser: the human-verification challenge never clears within the 60 s bound
(`waitForFunction` throws), `puter.ai.chat` raises, or a textual reply comes
back (already coerced to a string as the code does for object replies). -/
inductive OracleRun where
  | challengeTimeout
  | evalError (msg : String)
  | reply (raw : String)

/-- JS `text.replace(/```json\n?/g, '').replace(/```\n?/g, '').trim()`:
every fence marker is removed (each with its trailing newline when present)
and the result is trimmed. -/
def stripCodeFences (s : String) : String :=
  (((s.replace "```json\n" "").replace "```json" "").replace "```\n" ""
    |>.replace "```" "").trim

/-- `analyzeTicketsWithPuter`, abstracted over the oracle session: `parse`
stands for `JSON.parse` (`none` = it threw). Every failure path — challenge
timeout, oracle error, unparseable reply — returns `none` (JS `null`) to the
caller instead of raising. -/
def analyzeTicketsWithPuter (parse : String → Option OracleAnalysis) :
    OracleRun → Option OracleAnalysis
  | .challengeTimeout => none
  | .evalError _ => none
  | .reply raw =>
    match parse (stripCodeFences raw) with
    | none => none
    | some a => some a

/-- The output record of the script's `analyzeTicketsLocally`. -/
structure ScriptAnalyzedTicket where
  ticket_id : String
  subject : String
  priority : String
  requester_name : String
  requester_location : String
  status : String
  attendance_status : String
  first_response_at : Option String
  response_time_minutes : Option Int
  urgency_assessment : String
  recommendation : String

/-- The aggregate the script's local analyzer returns. -/
structure ScriptAnalysisResult where
  analysis_timestamp : String
  total_tickets : Nat
  summary : Summary
  tickets : List ScriptAnalyzedTicket

/-- The body of `tickets.map(t => {...})` in the script's
`analyzeTicketsLocally` (subject is truncated to 80 here; `first_response_at`
is `t.stats?.first_responded_at || null`). -/
def analyzeOneScript (t : RawTicket) : ScriptAnalyzedTicket where
  ticket_id := ticketIdField t
  subject :=
    let truncated := t.subject.map (fun s => s.take 80)
    if jsTruthyStr truncated then truncated.getD "" else "No subject"
  priority := priorityLabel t.priority
  requester_name := requesterNameField t
  requester_location := requesterLocationField t
  status := statusField t
  attendance_status := if isFresh t then "FRESH" else "REPLIED"
  first_response_at :=
    let f := t.stats.bind TicketStats.first_responded_at
    if jsTruthyStr f then f else none
  response_time_minutes := responseTimeMinutes t
  urgency_assessment :=
    if isFresh t then "Needs immediate attention" else "Being handled"
  recommendation := if isFresh t then "Assign and respond ASAP" else "Monitor progress"

/-- `analyzeTicketsLocally` of the script variant. -/
def analyzeTicketsLocally (now : String) (tickets : List RawTicket) :
    ScriptAnalysisResult :=
  let analyzedTickets := tickets.map analyzeOneScript
  { analysis_timestamp := now
    total_tickets := tickets.length
    summary :=
      { fresh_tickets :=
          (analyzedTickets.filter (fun t => t.attendance_status == "FRESH")).length
        replied_tickets :=
          (analyzedTickets.filter (fun t => t.attendance_status == "REPLIED")).length
        p1_count := (analyzedTickets.filter (fun t => t.priority == "P1")).length
        p2_count := (analyzedTickets.filter (fun t => t.priority == "P2")).length
        p3_count := (analyzedTickets.filter (fun t => t.priority == "P3")).length
        p4_count := (analyzedTickets.filter (fun t => t.priority == "P4")).length }
    tickets := analyzedTickets }

/-- The analysis value `main` ends up writing out: the oracle's, or the local
analyzer's after the fallback. -/
inductive FinalAnalysis where
  | fromOracle (a : OracleAnalysis)
  | fromLocal (a : ScriptAnalysisResult)

/-- The fallback in `main`:
`if (!analysis || !analysis.total_tickets) analysis = analyzeTicketsLocally(tickets)`. -/
def mainAnalysis (parse : String → Option OracleAnalysis) (run : OracleRun)
    (now : String) (tickets : List RawTicket) : FinalAnalysis :=
  match analyzeTicketsWithPuter parse run with
  | some a =>
    if jsTruthyInt a.total_tickets then .fromOracle a
    else .fromLocal (analyzeTicketsLocally now tickets)
  | none => .fromLocal (analyzeTicketsLocally now tickets)

/-- `main`'s analysis step, which runs only for a non-empty fetched list
(`if (tickets.length > 0)`). -/
def mainWorkflowAnalysis (parse : String → Option OracleAnalysis)
    (run : OracleRun) (now : String) (tickets : List RawTicket) :
    Option FinalAnalysis :=
  if tickets.length > 0 then some (mainAnalysis parse run now tickets) else none

/-! ## Helper lemmas -/

/-- A falsy optional string is exactly an absent, null or empty one. -/
theorem jsTruthyStr_eq_false_iff (x : Option String) :
    jsTruthyStr x = false ↔ (x = none ∨ x = some "") := by
  cases x with
  | none => simp [jsTruthyStr]
  | some s => simp [jsTruthyStr]

/-- `isFresh` unfolded to its two conditions. -/
theorem isFresh_iff (t : RawTicket) :
    isFresh t = true ↔
      ((t.stats.bind TicketStats.agent_responded_at = none ∨
        t.stats.bind TicketStats.agent_responded_at = some "") ∧
       (t.stats.bind TicketStats.outbound_count).getD 0 ≤ 1) := by
  rw [← jsTruthyStr_eq_false_iff]
  simp [isFresh]

/-- The attendance label is the freshness conditional. -/
theorem attendance_eq (t : RawTicket) :
    (analyzeOne t).attendance_status = if isFresh t then "FRESH" else "REPLIED" := rfl

/-- Every analyzed ticket is labelled FRESH or REPLIED. -/
theorem attendance_cases (t : RawTicket) :
    (analyzeOne t).attendance_status = "FRESH" ∨
    (analyzeOne t).attendance_status = "REPLIED" := by
  rw [attendance_eq]
  cases isFresh t <;> simp

/-- Every priority label is one of P1..P4. -/
theorem priorityLabel_cases (p : Option Int) :
    priorityLabel p = "P1" ∨ priorityLabel p = "P2" ∨
    priorityLabel p = "P3" ∨ priorityLabel p = "P4" := by
  cases p with
  | none => simp [priorityLabel]
  | some v =>
    simp only [priorityLabel, Option.bind, priorityMapLookup]
    split_ifs <;> simp

/-- Two Boolean predicates that split a list member-wise split its length. -/
theorem length_filter_two {α : Type} (p q : α → Bool) :
    ∀ l : List α,
      (∀ a ∈ l, (p a = true ∧ q a = false) ∨ (p a = false ∧ q a = true)) →
      (l.filter p).length + (l.filter q).length = l.length
  | [], _ => by simp
  | a :: l, h => by
    have ha := h a (List.mem_cons_self a l)
    have ih := length_filter_two p q l (fun x hx => h x (List.mem_cons_of_mem a hx))
    rcases ha with ⟨h1, h2⟩ | ⟨h1, h2⟩ <;> simp [List.filter_cons, h1, h2] <;> omega

/-- Four Boolean predicates of which exactly one holds member-wise split the
length four ways. -/
theorem length_filter_four {α : Type} (p1 p2 p3 p4 : α → Bool) :
    ∀ l : List α,
      (∀ a ∈ l,
        (p1 a = true ∧ p2 a = false ∧ p3 a = false ∧ p4 a = false) ∨
        (p1 a = false ∧ p2 a = true ∧ p3 a = false ∧ p4 a = false) ∨
        (p1 a = false ∧ p2 a = false ∧ p3 a = true ∧ p4 a = false) ∨
        (p1 a = false ∧ p2 a = false ∧ p3 a = false ∧ p4 a = true)) →
      (l.filter p1).length + (l.filter p2).length +
        (l.filter p3).length + (l.filter p4).length = l.length
  | [], _ => by simp
  | a :: l, h => by
    have ha := h a (List.mem_cons_self a l)
    have ih := length_filter_four p1 p2 p3 p4 l
      (fun x hx => h x (List.mem_cons_of_mem a hx))
    rcases ha with ⟨h1, h2, h3, h4⟩ | ⟨h1, h2, h3, h4⟩ | ⟨h1, h2, h3, h4⟩ | ⟨h1, h2, h3, h4⟩ <;>
      simp [List.filter_cons, h1, h2, h3, h4] <;> omega

/-! ## Claims -/

/-- C1. The claim as frozen is false on the code: a ticket whose
`stats.agent_responded_at` is the empty string (present, not null) with
`outbound_count = 0` is classified FRESH, while the claim's predicate
(`agent_responded_at` absent/null) demands REPLIED. -/
theorem C1_counterexample :
    ¬ ((analyzeOne tEmptyRespondedAt).attendance_status = "FRESH" ↔
       (tEmptyRespondedAt.stats.bind TicketStats.agent_responded_at = none ∧
        (tEmptyRespondedAt.stats.bind TicketStats.outbound_count).getD 0 ≤ 1)) := by
  decide

/-- C1 (amended). attendance_status = FRESH iff `stats.agent_responded_at` is
falsy — absent, null or the empty string — and `outbound_count` (0 when
absent) is at most 1; REPLIED in every other combination. -/
theorem C1_freshness_predicate (t : RawTicket) :
    ((analyzeOne t).attendance_status = "FRESH" ↔
      ((t.stats.bind TicketStats.agent_responded_at = none ∨
        t.stats.bind TicketStats.agent_responded_at = some "") ∧
       (t.stats.bind TicketStats.outbound_count).getD 0 ≤ 1)) ∧
    ((analyzeOne t).attendance_status = "REPLIED" ↔
      ¬ ((t.stats.bind TicketStats.agent_responded_at = none ∨
          t.stats.bind TicketStats.agent_responded_at = some "") ∧
         (t.stats.bind TicketStats.outbound_count).getD 0 ≤ 1)) := by
  rw [← isFresh_iff, attendance_eq]
  cases isFresh t <;> simp

/-- C2. The priority labelling is total and fixed: numeric 1 ↦ P4, 2 ↦ P3,
3 ↦ P2, 4 ↦ P1, and every other value or an absent priority ↦ P4. -/
theorem C2_priority_mapping (t : RawTicket) :
    (analyzeOne t).priority =
      if t.priority = some 1 then "P4"
      else if t.priority = some 2 then "P3"
      else if t.priority = some 3 then "P2"
      else if t.priority = some 4 then "P1"
      else "P4" := by
  show priorityLabel t.priority = _
  cases h : t.priority with
  | none => simp [priorityLabel]
  | some v =>
    simp only [priorityLabel, Option.bind, priorityMapLookup, Option.some.injEq]
    split_ifs <;> simp_all

/-- C4. The claim as frozen is false on the code: a present
`first_resp_time_in_secs = 0` is falsy in JS, so the code yields null where
the claim demands `round(0 / 60)`. -/
theorem C4_counterexample :
    tZeroResponse.stats.bind TicketStats.first_resp_time_in_secs = some 0 ∧
    (analyzeOne tZeroResponse).response_time_minutes = none ∧
    some (mathRound (((0 : Nat) : ℚ) / 60)) ≠ (none : Option Int) := by
  exact ⟨rfl, rfl, by simp⟩

/-- C4 (amended). response_time_minutes is `round(first_resp_time_in_secs/60)`
(round half up) whenever the field is present and non-zero, and null when it
is absent or zero; 90 seconds yields 2 and an absent field yields null. -/
theorem C4_response_time (t : RawTicket) :
    ((analyzeOne t).response_time_minutes =
      match t.stats.bind TicketStats.first_resp_time_in_secs with
      | none => none
      | some secs => if secs = 0 then none else some (mathRound ((secs : ℚ) / 60))) ∧
    (analyzeOne tNinetySecs).response_time_minutes = some 2 ∧
    (analyzeOne tBare).response_time_minutes = none := by
  refine ⟨?_, ?_, rfl⟩
  · show responseTimeMinutes t = _
    simp only [responseTimeMinutes]
    cases h : t.stats.bind TicketStats.first_resp_time_in_secs with
    | none => simp [jsTruthyNat]
    | some secs => by_cases h0 : secs = 0 <;> simp [jsTruthyNat, h0]
  · show responseTimeMinutes tNinetySecs = some 2
    simp [responseTimeMinutes, tNinetySecs, jsTruthyNat, mathRound]
    norm_num [round_eq]

/-- C10. The analysis is deterministic modulo the timestamp: two runs on the
same input agree on total_tickets, summary and the tickets sequence, and the
output sequence is the member-wise image of the input in input order. -/
theorem C10_deterministic_modulo_timestamp (now1 now2 : String)
    (ts : List RawTicket) :
    (analyzeTickets now1 ts).total_tickets = (analyzeTickets now2 ts).total_tickets ∧
    (analyzeTickets now1 ts).summary = (analyzeTickets now2 ts).summary ∧
    (analyzeTickets now1 ts).tickets = (analyzeTickets now2 ts).tickets ∧
    (analyzeTickets now1 ts).tickets = ts.map analyzeOne :=
  ⟨rfl, rfl, rfl, rfl⟩

/-- The FRESH/REPLIED filters split any list of analyzed tickets. -/
theorem fresh_replied_split (l : List AnalyzedTicket)
    (h : ∀ a ∈ l, a.attendance_status = "FRESH" ∨ a.attendance_status = "REPLIED") :
    (l.filter (fun t => t.attendance_status == "FRESH")).length +
      (l.filter (fun t => t.attendance_status == "REPLIED")).length = l.length := by
  apply length_filter_two
  intro a ha
  rcases h a ha with h1 | h1
  · left; simp [h1]
  · right; simp [h1]

/-- The four priority filters split any list of analyzed tickets. -/
theorem priority_split (l : List AnalyzedTicket)
    (h : ∀ a ∈ l, a.priority = "P1" ∨ a.priority = "P2" ∨
      a.priority = "P3" ∨ a.priority = "P4") :
    (l.filter (fun t => t.priority == "P1")).length +
      (l.filter (fun t => t.priority == "P2")).length +
      (l.filter (fun t => t.priority == "P3")).length +
      (l.filter (fun t => t.priority == "P4")).length = l.length := by
  apply length_filter_four
  intro a ha
  rcases h a ha with h1 | h1 | h1 | h1
  · left; simp [h1]
  · right; left; simp [h1]
  · right; right; left; simp [h1]
  · right; right; right; simp [h1]

/-- C3. total_tickets is the length of the tickets sequence, each summary
counter is the exact count of analyzed tickets with the corresponding label,
and both the freshness pair and the four priority counters sum to
total_tickets. -/
theorem C3_summary_invariants (now : String) (ts : List RawTicket) :
    (analyzeTickets now ts).total_tickets = (analyzeTickets now ts).tickets.length ∧
    (analyzeTickets now ts).summary.fresh_tickets =
      ((analyzeTickets now ts).tickets.filter
        (fun t => t.attendance_status == "FRESH")).length ∧
    (analyzeTickets now ts).summary.replied_tickets =
      ((analyzeTickets now ts).tickets.filter
        (fun t => t.attendance_status == "REPLIED")).length ∧
    (analyzeTickets now ts).summary.p1_count =
      ((analyzeTickets now ts).tickets.filter (fun t => t.priority == "P1")).length ∧
    (analyzeTickets now ts).summary.p2_count =
      ((analyzeTickets now ts).tickets.filter (fun t => t.priority == "P2")).length ∧
    (analyzeTickets now ts).summary.p3_count =
      ((analyzeTickets now ts).tickets.filter (fun t => t.priority == "P3")).length ∧
    (analyzeTickets now ts).summary.p4_count =
      ((analyzeTickets now ts).tickets.filter (fun t => t.priority == "P4")).length ∧
    (analyzeTickets now ts).summary.fresh_tickets +
      (analyzeTickets now ts).summary.replied_tickets =
      (analyzeTickets now ts).total_tickets ∧
    (analyzeTickets now ts).summary.p1_count + (analyzeTickets now ts).summary.p2_count +
      (analyzeTickets now ts).summary.p3_count + (analyzeTickets now ts).summary.p4_count =
      (analyzeTickets now ts).total_tickets := by
  refine ⟨by simp [analyzeTickets], rfl, rfl, rfl, rfl, rfl, rfl, ?_, ?_⟩
  · have hsplit := fresh_replied_split (ts.map analyzeOne) ?_
    · simpa [analyzeTickets] using hsplit
    · intro a ha
      rcases List.mem_map.mp ha with ⟨t, _, rfl⟩
      exact attendance_cases t
  · have hsplit := priority_split (ts.map analyzeOne) ?_
    · simpa [analyzeTickets] using hsplit
    · intro a ha
      rcases List.mem_map.mp ha with ⟨t, _, rfl⟩
      exact priorityLabel_cases t.priority

/-- C5. The fetch pages with fixed page size 100 and continues exactly while
the page just fetched holds exactly 100 tickets: pages of 100, 100 and 42
tickets accumulate all 242 tickets over exactly 3 upstream calls, and an
empty first page yields an empty result after exactly 1 upstream call. -/
theorem C5_pagination (p1 p2 p3 q : List RawTicket)
    (h1 : p1.length = 100) (h2 : p2.length = 100) (h3 : p3.length = 42)
    (hq : q.length = 0) :
    runFetch [.ok p1, .ok p2, .ok p3] = .success (p1 ++ p2 ++ p3) 3 ∧
    (p1 ++ p2 ++ p3).length = 242 ∧
    runFetch [.ok q] = .success [] 1 := by
  have hq0 : q = [] := List.length_eq_zero.mp hq
  subst hq0
  refine ⟨?_, by simp [h1, h2, h3], by simp [runFetch]⟩
  simp [runFetch, h1, h2, h3, List.append_assoc]

/-- Witness for C5 at concrete pages. -/
theorem C5_pagination_witness :
    runFetch [.ok (List.replicate 100 tBare), .ok (List.replicate 100 tBare),
        .ok (List.replicate 42 tBare)] =
      .success (List.replicate 100 tBare ++ List.replicate 100 tBare ++
        List.replicate 42 tBare) 3 ∧
    (List.replicate 100 tBare ++ List.replicate 100 tBare ++
      List.replicate 42 tBare).length = 242 ∧
    runFetch [.ok ([] : List RawTicket)] = .success [] 1 :=
  C5_pagination _ _ _ [] (by simp) (by simp) (by simp) rfl

/-- C6. A 401/403 during the first paginated fetch triggers exactly one
re-login and exactly one retried fetch sequence from page 1; the retried
sequence's result is the caller's result, and a second 401/403 during it is
fatal — no third attempt is started. -/
theorem C6_relogin_once (firstRun retryRun : List PageResp) (n : Nat)
    (h1 : runFetch firstRun = .authFail n) :
    (fetchWithRelogin firstRun retryRun).2.1 = 1 ∧
    (fetchWithRelogin firstRun retryRun).2.2 = 2 ∧
    (∀ ts c, runFetch retryRun = .success ts c →
      (fetchWithRelogin firstRun retryRun).1 = .ok ts) ∧
    (∀ m, runFetch retryRun = .authFail m →
      (fetchWithRelogin firstRun retryRun).1 = .fatalAuth) := by
  unfold fetchWithRelogin
  rw [h1]
  refine ⟨?_, ?_, ?_, ?_⟩
  · cases h2 : runFetch retryRun <;> simp
  · cases h2 : runFetch retryRun <;> simp
  · intro ts c h2
    rw [h2]
  · intro m h2
    rw [h2]

/-- Witness for C6: both runs hit a 401 on page 1. -/
theorem C6_relogin_once_witness :
    (fetchWithRelogin [.authDenied] [.authDenied]).2.1 = 1 ∧
    (fetchWithRelogin [.authDenied] [.authDenied]).2.2 = 2 ∧
    (∀ ts c, runFetch [PageResp.authDenied] = .success ts c →
      (fetchWithRelogin [.authDenied] [.authDenied]).1 = .ok ts) ∧
    (∀ m, runFetch [PageResp.authDenied] = .authFail m →
      (fetchWithRelogin [.authDenied] [.authDenied]).1 = .fatalAuth) :=
  C6_relogin_once [.authDenied] [.authDenied] 1 rfl

/-- A successful pagination run returns exactly the concatenation of the pages
it consumed, and every consumed page was an ok response. -/
theorem runFetch_success_complete :
    ∀ (pages : List PageResp) (ts : List RawTicket) (n : Nat),
      runFetch pages = .success ts n →
      ts = ((pages.take n).map pageTickets).flatten ∧
      ∀ r ∈ pages.take n, ∃ l, r = PageResp.ok l
  | [], ts, n, h => by
    simp only [runFetch, FetchOutcome.success.injEq] at h
    obtain ⟨rfl, rfl⟩ := h
    simp
  | .ok l :: rest, ts, n, h => by
    by_cases h100 : l.length = 100
    · rw [show runFetch (.ok l :: rest) =
          (if l.length = 100 then
            match runFetch rest with
            | .success acc n => .success (l ++ acc) (n + 1)
            | .authFail n => .authFail (n + 1)
            | .httpFail c n => .httpFail c (n + 1)
          else .success l 1) from rfl, if_pos h100] at h
      cases hr : runFetch rest with
      | success acc m =>
        rw [hr] at h
        simp only [FetchOutcome.success.injEq] at h
        obtain ⟨rfl, rfl⟩ := h
        obtain ⟨hacc, hok⟩ := runFetch_success_complete rest acc m hr
        constructor
        · simp [List.take_succ_cons, pageTickets, hacc]
        · intro r hrmem
          rcases List.mem_cons.mp hrmem with rfl | hrmem
          · exact ⟨l, rfl⟩
          · exact hok r hrmem
      | authFail m => rw [hr] at h; simp at h
      | httpFail c m => rw [hr] at h; simp at h
    · rw [show runFetch (.ok l :: rest) =
          (if l.length = 100 then
            match runFetch rest with
            | .success acc n => .success (l ++ acc) (n + 1)
            | .authFail n => .authFail (n + 1)
            | .httpFail c n => .httpFail c (n + 1)
          else .success l 1) from rfl, if_neg h100] at h
      simp only [FetchOutcome.success.injEq] at h
      obtain ⟨rfl, rfl⟩ := h
      refine ⟨by simp [pageTickets], ?_⟩
      intro r hrmem
      have : r = PageResp.ok l := by simpa using hrmem
      exact ⟨l, this⟩
  | .authDenied :: rest, ts, n, h => by simp [runFetch] at h
  | .httpError c :: rest, ts, n, h => by simp [runFetch] at h

/-- C8. No partial results: a pagination run that succeeds returns the full
accumulation of the (all ok) pages it consumed, and the `/api/tickets` handler
either answers 200 with the analysis of the complete fetched list or answers
500 with an error body carrying no ticket data — never a truncated
AnalysisResult. -/
theorem C8_no_partial_results :
    (∀ (pages : List PageResp) (ts : List RawTicket) (n : Nat),
      runFetch pages = .success ts n →
      ts = ((pages.take n).map pageTickets).flatten ∧
      ∀ r ∈ pages.take n, ∃ l, r = PageResp.ok l) ∧
    (∀ (now : String) (firstRun retryRun : List PageResp),
      (∃ ts, (fetchWithRelogin firstRun retryRun).1 = .ok ts ∧
        handleTickets now firstRun retryRun = .okJson (analyzeTickets now ts)) ∨
      (∃ e h, handleTickets now firstRun retryRun = .serverError e h)) := by
  refine ⟨runFetch_success_complete, ?_⟩
  intro now firstRun retryRun
  cases hf : (fetchWithRelogin firstRun retryRun).1 with
  | ok ts =>
    left
    exact ⟨ts, rfl, by simp [handleTickets, hf]⟩
  | fatalAuth =>
    right
    exact ⟨fetchErrorMessage .fatalAuth, handlerHint (fetchErrorMessage .fatalAuth),
      by simp [handleTickets, hf]⟩
  | httpFail c =>
    right
    exact ⟨fetchErrorMessage (.httpFail c), handlerHint (fetchErrorMessage (.httpFail c)),
      by simp [handleTickets, hf]⟩

/-- C9. `analyzeTicketsWithPuter` returns null on every failure — challenge
timeout, oracle error, unparseable reply — and `main` falls back to the local
analyzer whenever the oracle result is null or its total_tickets is falsy, so
a non-empty ticket list always produces an analysis. -/
theorem C9_oracle_fallback (parse : String → Option OracleAnalysis)
    (now : String) (tickets : List RawTicket) (msg raw : String)
    (run : OracleRun) :
    analyzeTicketsWithPuter parse .challengeTimeout = none ∧
    analyzeTicketsWithPuter parse (.evalError msg) = none ∧
    (parse (stripCodeFences raw) = none →
      analyzeTicketsWithPuter parse (.reply raw) = none) ∧
    (analyzeTicketsWithPuter parse run = none →
      mainAnalysis parse run now tickets =
        .fromLocal (analyzeTicketsLocally now tickets)) ∧
    (∀ a, analyzeTicketsWithPuter parse run = some a →
      jsTruthyInt a.total_tickets = false →
      mainAnalysis parse run now tickets =
        .fromLocal (analyzeTicketsLocally now tickets)) ∧
    (tickets ≠ [] → mainWorkflowAnalysis parse run now tickets ≠ none) := by
  refine ⟨rfl, rfl, ?_, ?_, ?_, ?_⟩
  · intro h
    simp [analyzeTicketsWithPuter, h]
  · intro h
    simp [mainAnalysis, h]
  · intro a h hf
    simp [mainAnalysis, h, hf]
  · intro h
    have hpos : 0 < tickets.length := List.length_pos.mpr h
    simp [mainWorkflowAnalysis, hpos]

/-- A nonempty string truncated to its first 100 characters stays nonempty. -/
theorem take100_ne_empty (s : String) (h : s ≠ "") : s.take 100 ≠ "" := by
  intro hc
  apply h
  have hdata : s.data.take 100 = [] := by
    have := congrArg String.data hc
    simpa [String.data_take] using this
  rcases List.take_eq_nil_iff.mp hdata with h0 | h0
  · exact absurd h0 (by norm_num)
  · cases s
    subst h0
    rfl

/-- C7. The claim as frozen is false on the code: a present but empty subject
is falsy in JS, so the code substitutes "No subject" where the claim demands
the (empty) 100-character truncation of the present subject. -/
theorem C7_counterexample :
    tEmptySubject.subject = some "" ∧
    (analyzeOne tEmptySubject).subject = "No subject" ∧
    ("No subject" : String) ≠ ("" : String).take 100 := by
  exact ⟨rfl, by decide, by decide⟩

/-- C7 (amended). The analyzer is total — every input yields exactly one
output record — and applies the defaults exactly: an absent subject yields
"No subject" untruncated, a present non-empty subject is truncated to its
first 100 characters (a present empty subject also yields "No subject"), an
absent requester name yields "Unknown", an unresolvable status yields
"Unknown" in the browser-login variant and the numeric fallback label in the
API-key variant. -/
theorem C7_totality_and_defaults (t : RawTicket) (now : String)
    (ts : List RawTicket) :
    (analyzeTickets now ts).tickets.length = ts.length ∧
    (t.subject = none → (analyzeOne t).subject = "No subject") ∧
    (t.subject = some "" → (analyzeOne t).subject = "No subject") ∧
    (∀ s, t.subject = some s → s ≠ "" → (analyzeOne t).subject = s.take 100) ∧
    (t.requester.bind Requester.name = none →
      (analyzeOne t).requester_name = "Unknown") ∧
    (t.ticket_status.bind TicketStatus.name = none →
      (analyzeOne t).status = "Unknown") ∧
    (∀ v : Int, v ≠ 2 → v ≠ 3 → v ≠ 4 → v ≠ 5 →
      statusLabelApiVariant (some v) = "Status " ++ toString v) := by
  refine ⟨by simp [analyzeTickets], ?_, ?_, ?_, ?_, ?_, ?_⟩
  · intro h
    show subjectField t = _
    simp [subjectField, h, jsTruthyStr]
  · intro h
    show subjectField t = _
    have he : ("" : String).take 100 = "" := rfl
    simp [subjectField, h, jsTruthyStr, he]
  · intro s h hne
    show subjectField t = _
    have htr := take100_ne_empty s hne
    simp [subjectField, h, jsTruthyStr, htr]
  · intro h
    show requesterNameField t = _
    simp [requesterNameField, h, jsTruthyStr]
  · intro h
    show statusField t = _
    simp [statusField, h, jsTruthyStr]
  · intro v h2 h3 h4 h5
    simp [statusLabelApiVariant, statusMapLookup, h2, h3, h4, h5]
